import Mathlib

set_option autoImplicit false

/-! # Shallow embedding of the incremental ticket-creation pipeline

Embeds the code under task-3-ticket-creation: row values, Python date
handling (transformer.to_date_obj), the tracking state, the incremental
filter and finalization (tracking_manager), the answers builder
(transformer.build_form_answers), the multi-value handset mapper
(mappers.map_handsets_field_dynamic), row processing (processor.process_row),
the orchestrator loop (main.main), tracking-state load (state_manager),
and the schema fetch retry loop (jira_helpers.fetch_form_definition_cloud).
-/

/-- Values a database row cell can take: SQL NULL / Python None, text,
a Python date (or datetime, observationally identical after .date()),
or a native list of strings. -/
inductive DBVal where
  | vNone
  | vStr (s : String)
  | vDate (y m d : Nat)
  | vList (xs : List String)
deriving DecidableEq, Repr

/-- Python truthiness of a row value (None, empty string and empty list are falsy). -/
def pyTruthy : DBVal → Bool
  | .vNone => false
  | .vStr s => s ≠ ""
  | .vDate _ _ _ => true
  | .vList xs => xs ≠ []

/-- A proleptic-Gregorian calendar date, as Python datetime.date. -/
structure PDate where
  y : Nat
  m : Nat
  d : Nat
deriving DecidableEq, Repr

/-- Python date ordering: lexicographic on (year, month, day). -/
def PDate.lt (a b : PDate) : Bool :=
  a.y < b.y || (a.y = b.y && (a.m < b.m || (a.m = b.m && a.d < b.d)))

def pad2 (n : Nat) : String := if n < 10 then "0" ++ toString n else toString n

def pad4 (n : Nat) : String :=
  if n < 10 then "000" ++ toString n
  else if n < 100 then "00" ++ toString n
  else if n < 1000 then "0" ++ toString n
  else toString n

/-- Python date.isoformat(): zero-padded YYYY-MM-DD. -/
def PDate.isoformat (dt : PDate) : String :=
  pad4 dt.y ++ "-" ++ pad2 dt.m ++ "-" ++ pad2 dt.d

/-- Python str() of a row value (str(None) = "None", str(date) = isoformat). -/
def pyStr : DBVal → String
  | .vNone => "None"
  | .vStr s => s
  | .vDate y m d => pad4 y ++ "-" ++ pad2 m ++ "-" ++ pad2 d
  | .vList xs =>
    "[" ++ String.intercalate ", " (xs.map (fun s => "\x27" ++ s ++ "\x27")) ++ "]"

def digitVal (c : Char) : Option Nat :=
  if c.isDigit then some (c.toNat - 48) else none

/-- strptime %m, two-digit alternatives (regex 1[0-2] | 0[1-9]). -/
def month2 (a b : Char) : Option Nat :=
  if a = '1' ∧ '0' ≤ b ∧ b ≤ '2' then some (10 + (b.toNat - 48))
  else if a = '0' ∧ '1' ≤ b ∧ b ≤ '9' then some (b.toNat - 48)
  else none

/-- strptime %m, one-digit alternative (regex [1-9]). -/
def month1 (a : Char) : Option Nat :=
  if '1' ≤ a ∧ a ≤ '9' then some (a.toNat - 48) else none

/-- strptime %d, two-digit alternatives (regex 3[01] | [12]\d | 0[1-9]). -/
def day2 (a b : Char) : Option Nat :=
  if a = '3' ∧ (b = '0' ∨ b = '1') then some (30 + (b.toNat - 48))
  else if (a = '1' ∨ a = '2') ∧ b.isDigit then some ((a.toNat - 48) * 10 + (b.toNat - 48))
  else if a = '0' ∧ '1' ≤ b ∧ b ≤ '9' then some (b.toNat - 48)
  else none

/-- strptime %d at end of input: exactly two or exactly one digit chars remain. -/
def dayChars : List Char → Option Nat
  | [a, b] => day2 a b
  | [a] => if '1' ≤ a ∧ a ≤ '9' then some (a.toNat - 48) else none
  | _ => none

def isLeapYear (y : Nat) : Bool :=
  y % 4 = 0 && (y % 100 ≠ 0 || y % 400 = 0)

def daysInMonth (y m : Nat) : Nat :=
  if m = 2 then (if isLeapYear y then 29 else 28)
  else if m = 4 ∨ m = 6 ∨ m = 9 ∨ m = 11 then 30
  else 31

/-- datetime.date(y, m, d) validity check (month is already 1..12 from the
regex; Python requires 1 ≤ year ≤ 9999 and day within the month). -/
def mkDate (y m d : Nat) : Option PDate :=
  if 1 ≤ y ∧ y ≤ 9999 ∧ d ≤ daysInMonth y m then some ⟨y, m, d⟩ else none

/-- Month-then-day tail of the strptime %Y-%m-%d pattern, with the regex
backtracking from the two-digit month alternatives to the one-digit one. -/
def monthDay (y : Nat) (cs : List Char) : Option PDate :=
  let one : Option PDate :=
    match cs with
    | a :: '-' :: ds =>
      match month1 a, dayChars ds with
      | some m, some d => mkDate y m d
      | _, _ => none
    | _ => none
  match cs with
  | a :: b :: '-' :: ds =>
    match month2 a b, dayChars ds with
    | some m, some d => mkDate y m d
    | _, _ => one
  | _ => one

/-- datetime.strptime(s, %Y-%m-%d).date(): four year digits, then month and
day; the whole string must be consumed, and the date must be valid. -/
def parseYMD (s : String) : Option PDate :=
  match s.data with
  | c1 :: c2 :: c3 :: c4 :: '-' :: rest =>
    match digitVal c1, digitVal c2, digitVal c3, digitVal c4 with
    | some a, some b, some c, some d => monthDay (a * 1000 + b * 100 + c * 10 + d) rest
    | _, _, _, _ => none
  | _ => none

/-- transformer.to_date_obj: date objects pass through, datetimes are
truncated (merged into vDate here), strings have their first 10 characters
parsed as YYYY-MM-DD, everything else (and parse failure) yields none. -/
def to_date_obj : DBVal → Option PDate
  | .vNone => none
  | .vDate y m d => some ⟨y, m, d⟩
  | .vStr s => parseYMD (s.take 10)
  | .vList _ => none

/-- First-match association-list lookup (Python dict read). -/
def alookup {α β : Type} [DecidableEq α] : List (α × β) → α → Option β
  | [], _ => none
  | (a, b) :: t, k => if a = k then some b else alookup t k

/-- Python dict assignment d[k] = v: update in place if the key exists,
else append at the end (insertion order preserved). -/
def updAssoc {α β : Type} [DecidableEq α] : List (α × β) → α → β → List (α × β)
  | [], k, v => [(k, v)]
  | (a, b) :: t, k, v => if a = k then (a, v) :: t else (a, b) :: updAssoc t k v

/-- A database row: a dict from column name to value. -/
abbrev Row := List (String × DBVal)

/-- row.get(k): missing key and stored None are both Python None. -/
def Row.get (r : Row) (k : String) : DBVal := (alookup r k).getD .vNone

/-- Python `a or b` on row values. -/
def pyOrV (a b : DBVal) : DBVal := if pyTruthy a then a else b

/-- The email fallback chain used in tracking_manager, processor and
transformer: r.get(emailaddress) or r.get(email) or r.get(Email). -/
def rowEmail (r : Row) : DBVal :=
  pyOrV (pyOrV (r.get "emailaddress") (r.get "email")) (r.get "Email")

/-- The persisted tracking state (state_manager.DEFAULT_STATE shape). -/
structure Tracking where
  last_run_date : Option String
  processed_emails_same_date : List String
  email_to_issue : List (DBVal × String)
  flagged_requests : List (DBVal × String)
deriving DecidableEq, Repr

/-- Lexicographic order on char lists (Python string comparison is
code-point lexicographic). -/
def charsLt : List Char → List Char → Bool
  | [], [] => false
  | [], _ :: _ => true
  | _ :: _, [] => false
  | a :: as, b :: bs => if a < b then true else if b < a then false else charsLt as bs

/-- Python s1 < s2. -/
def pyStrLt (a b : String) : Bool := charsLt a.data b.data

/-- Python s1 <= s2 (total order, so the negation of the reverse strict order). -/
def pyStrLe (a b : String) : Bool := !charsLt b.data a.data

/-- Python `email in set_of_strings` for a row value. -/
def emailInList (e : DBVal) (l : List String) : Bool :=
  match e with
  | .vStr x => l.contains x
  | _ => false

/-- Decision for one row in tracking_manager.filter_rows_for_processing. -/
def keep_row (tracking : Tracking) (r : Row) : Bool :=
  match to_date_obj (r.get "createdat") with
  | none => false
  | some rd =>
    let row_date_str := rd.isoformat
    let email := rowEmail r
    match tracking.last_run_date with
    | none => true
    | some last =>
      if pyStrLt last row_date_str then true
      else if row_date_str = last then
        if !pyTruthy email then false
        else !emailInList email tracking.processed_emails_same_date
      else false

/-- tracking_manager.filter_rows_for_processing: the row loop, appending
the rows that survive the incremental rules in order. -/
def filter_rows_for_processing : List Row → Tracking → List Row
  | [], _ => []
  | r :: rs, tracking =>
    if keep_row tracking r then r :: filter_rows_for_processing rs tracking
    else filter_rows_for_processing rs tracking

/-- Python sorted(set(xs)) for strings. -/
def sortedUnique (xs : List String) : List String :=
  xs.dedup.insertionSort (fun a b => pyStrLe a b)

/-- tracking_manager.finalize_tracking_after_run; date.today() is passed
in as today_str, the emails set as a list. -/
def finalize_tracking_after_run (today_str : String) (tracking : Tracking)
    (emails_processed_today : List String) : Tracking :=
  { tracking with
    last_run_date := some today_str,
    processed_emails_same_date := sortedUnique emails_processed_today }

/-- Char-list prefix test. -/
def charsPrefix : List Char → List Char → Bool
  | [], _ => true
  | _ :: _, [] => false
  | a :: as, b :: bs => a == b && charsPrefix as bs

/-- Char-list contiguous-substring test (empty needle always matches). -/
def charsSub : List Char → List Char → Bool
  | n, [] => n.isEmpty
  | n, h :: hs' => charsPrefix n (h :: hs') || charsSub n hs'

/-- Python `a in b` on strings: contiguous substring. -/
def strIn (a b : String) : Bool := charsSub a.data b.data

/-- Python str.lower(), character by character. -/
def lowerString (s : String) : String := String.mk (s.data.map Char.toLower)

def dropLeadingWS : List Char → List Char
  | [] => []
  | x :: xs => if x.isWhitespace then dropLeadingWS xs else x :: xs

/-- Python str.strip(): remove leading and trailing whitespace. -/
def pyStrip (s : String) : String :=
  String.mk (((dropLeadingWS s.data).reverse |> dropLeadingWS).reverse)

def splitOnCharAux (c : Char) : List Char → List Char → List String
  | cur, [] => [String.mk cur.reverse]
  | cur, x :: xs =>
    if x = c then String.mk cur.reverse :: splitOnCharAux c [] xs
    else splitOnCharAux c (x :: cur) xs

/-- Python s.split(c) for a one-character separator: keeps empty pieces. -/
def splitOnChar (c : Char) (s : String) : List String := splitOnCharAux c [] s.data

/-- mappers._normalize_label and the inline normalizations in transformer
and form_mapping: lowercase, keep only alphanumeric characters. -/
def normalize_label (s : String) : String :=
  String.mk ((lowerString s).data.filter Char.isAlphanum)

/-- One choice of a form question, fields as Python-optional strings
(the id is carried in its str() form). -/
structure Choice where
  label : Option String
  id : Option String
deriving DecidableEq, Repr

/-- A form question: q.get(type, <empty>) and q.get(choices) or []. -/
structure Question where
  qtype : String
  choices : List Choice
deriving DecidableEq, Repr

/-- The questions dict extracted from the form JSON. -/
abbrev Questions := List (String × Question)

/-- form_mapping.build_choice_label_to_id_map output: qid -> normalized label -> choice id. -/
abbrev ChoiceMap := List (String × List (String × String))

/-- A typed Jira form answer value. -/
inductive AnswerVal where
  | text (s : String)
  | date (s : String)
  | choices (ids : List String)
deriving DecidableEq, Repr

/-- The answers payload: dict from question id to answer value. -/
abbrev Answers := List (String × AnswerVal)

/-- tracking.setdefault(flagged_requests, dict())[email] = reason. -/
def flagRequest (t : Tracking) (email : DBVal) (reason : String) : Tracking :=
  { t with flagged_requests := updAssoc t.flagged_requests email reason }

/-- Python truthiness of an optional string (None and the empty string are falsy). -/
def optStrTruthy : Option String → Bool
  | none => false
  | some s => s ≠ ""

/-- Token list for a choice-typed value in transformer.build_form_answers:
a native list keeps its truthy elements stripped; anything else is
str()-ed, split on commas, stripped, blanks dropped. -/
def labels_of (value : DBVal) : List String :=
  match value with
  | .vList xs => (xs.filter (fun x => x ≠ "")).map pyStrip
  | v => ((splitOnChar ',' (pyStr v)).map pyStrip).filter (fun s => s ≠ "")

/-- The fuzzy fallback in build_form_answers: first table entry whose
normalized key contains, or is contained in, the normalized token. -/
def fuzzy_match (q_choice_map : List (String × String)) (norm_label : String) : Option String :=
  (q_choice_map.find? (fun p => strIn norm_label p.1 || strIn p.1 norm_label)).map (fun p => p.2)

/-- The per-label loop of the cs/cm branch in build_form_answers: exact
normalized lookup if truthy, else first fuzzy hit, else drop the token. -/
def choice_token_ids (q_choice_map : List (String × String)) : List String → List String
  | [] => []
  | label :: rest =>
    let norm_label := normalize_label label
    let tail := choice_token_ids q_choice_map rest
    match alookup q_choice_map norm_label with
    | some c =>
      if c ≠ "" then c :: tail
      else
        match fuzzy_match q_choice_map norm_label with
        | some k => k :: tail
        | none => tail
    | none =>
      match fuzzy_match q_choice_map norm_label with
      | some k => k :: tail
      | none => tail

/-- The per-column dispatch on the question type tag in build_form_answers;
none means the question key is omitted from the payload. -/
def answer_for_value (qtype : String) (q_choice_map : List (String × String))
    (value : DBVal) : Option AnswerVal :=
  if qtype = "ts" ∨ qtype = "te" ∨ qtype = "pg" ∨ qtype = "text" then
    some (.text (pyStr value))
  else if qtype = "da" then
    some (.date (match to_date_obj value with
      | some d => d.isoformat
      | none => pyStr value))
  else if qtype = "cs" ∨ qtype = "cm" then
    let choice_ids := choice_token_ids q_choice_map (labels_of value)
    if choice_ids ≠ [] then some (.choices choice_ids) else none
  else
    some (.text (pyStr value))

/-- The remaining-fields loop of build_form_answers over the configured
column-to-question map, skipping timeframe and the handsets column. -/
def map_remaining_fields (row : Row) (questions : Questions) (choice_map : ChoiceMap) :
    List (String × String) → Answers → Answers
  | [], answers => answers
  | (db_col, qid) :: rest, answers =>
    if db_col = "timeframe" ∨ db_col = "handsetsandheadsets" then
      map_remaining_fields row questions choice_map rest answers
    else
      let value := row.get db_col
      if value = .vNone then map_remaining_fields row questions choice_map rest answers
      else
        let qtype := ((alookup questions qid).getD ⟨"", []⟩).qtype
        let q_choice_map := (alookup choice_map qid).getD []
        match answer_for_value qtype q_choice_map value with
        | some a => map_remaining_fields row questions choice_map rest (updAssoc answers qid a)
        | none => map_remaining_fields row questions choice_map rest answers

/-- str(row.get(timeframe) or <empty>).strip() in build_form_answers. -/
def timeframe_raw_of (row : Row) : String :=
  pyStrip (if pyTruthy (row.get "timeframe") then pyStr (row.get "timeframe") else "")

/-- The normalized timeframe key of a row. -/
def timeframe_norm_of (row : Row) : String := normalize_label (timeframe_raw_of row)

/-- The timeframe choice-id lookup of build_form_answers: the timeframe
question's table, keyed by the row's normalized timeframe. -/
def timeframe_choice_id_of (row : Row) (choice_map : ChoiceMap)
    (db_to_qid : List (String × String)) : Option String :=
  alookup ((alookup choice_map ((alookup db_to_qid "timeframe").getD "")).getD [])
    (timeframe_norm_of row)

/-- transformer.build_form_answers. The configured DB column → question id
map (config.DB_TO_QID, not part of src) is passed in as db_to_qid; the
mutation of the tracking dict is returned as the second component. -/
def build_form_answers (row : Row) (questions : Questions) (choice_map : ChoiceMap)
    (tracking : Tracking) (db_to_qid : List (String × String)) : Option Answers × Tracking :=
  let email := rowEmail row
  let timeframe_qid := (alookup db_to_qid "timeframe").getD ""
  let timeframe_raw := timeframe_raw_of row
  let timeframe_norm := timeframe_norm_of row
  let timeframe_choice_id := timeframe_choice_id_of row choice_map db_to_qid
  if ¬ optStrTruthy timeframe_choice_id then
    (none, flagRequest tracking email ("Invalid timeframe: " ++ timeframe_raw))
  else
    let answers0 : Answers := [(timeframe_qid, .choices [timeframe_choice_id.getD ""])]
    let date_needed := to_date_obj (row.get "dateneededby")
    let approx_end := to_date_obj (row.get "approximateendingdate")
    if timeframe_norm = "temporary" then
      match date_needed, approx_end with
      | some dn, some ae =>
        if ¬ PDate.lt dn ae then
          (none, flagRequest tracking email "approximateendingdate <= dateneededby")
        else
          (some (map_remaining_fields row questions choice_map db_to_qid answers0), tracking)
      | _, _ =>
        (none, flagRequest tracking email "Missing date(s) for temporary request")
    else
      (some (map_remaining_fields row questions choice_map db_to_qid answers0), tracking)

/-- The dict comprehension in mappers.map_handsets_field_dynamic: normalized
label → str(id) over the choices whose label is not None. -/
def handset_label_map (choices : List Choice) : List (String × String) :=
  choices.foldl (fun m ch =>
    match ch.label with
    | none => m
    | some lab => updAssoc m (normalize_label lab) (ch.id.getD "None")) []

/-- The dedup-while-mapping loop of map_handsets_field_dynamic. -/
def hs_loop (label_map : List (String × String)) (seen : List String) :
    List String → List String
  | [] => seen
  | p :: ps =>
    let nid :=
      match alookup label_map (normalize_label p) with
      | some c => if c ≠ "" then c else "0"
      | none => "0"
    hs_loop label_map (if seen.contains nid then seen else seen ++ [nid]) ps

/-- mappers.map_handsets_field_dynamic; none models a Python-None raw value. -/
def map_handsets_field_dynamic (raw_value : Option String) (questions : Questions) :
    List String :=
  match raw_value with
  | none => []
  | some rv =>
    if rv = "" then []
    else
      let parts := ((splitOnChar ';' rv).map pyStrip).filter (fun p => p ≠ "")
      let q := (alookup questions "159").getD ⟨"", []⟩
      let label_map := handset_label_map q.choices
      hs_loop label_map [] parts

/-- Spec-side duplicate suppression preserving first-seen order. -/
def dedupFirstAux (seen : List String) : List String → List String
  | [] => []
  | x :: xs =>
    if seen.contains x then dedupFirstAux seen xs
    else x :: dedupFirstAux (seen ++ [x]) xs

def dedupKeepFirst (xs : List String) : List String := dedupFirstAux [] xs

/-- The spec's description of mapMultiValueField (section 4.3), written from
its words: split on semicolons, trim blanks, normalize each part, look it up
in the handset question's label-to-id table, map unmatched labels to the
sentinel "0", then suppress duplicates preserving first-seen order. -/
def spec_mapMultiValueField (raw_value : Option String) (questions : Questions) :
    List String :=
  match raw_value with
  | none => []
  | some rv =>
    if rv = "" then []
    else
      let parts := ((splitOnChar ';' rv).map pyStrip).filter (fun p => p ≠ "")
      let table := handset_label_map ((alookup questions "159").getD ⟨"", []⟩).choices
      dedupKeepFirst (parts.map (fun p => (alookup table (normalize_label p)).getD "0"))

/-- The string carried by a text row value, if it is one. -/
def dbvalAsStr : DBVal → Option String
  | .vStr s => some s
  | _ => none

/-- The parsed created date of a row rendered back to ISO, as computed at
the tail of processor.process_row. -/
def created_iso (row : Row) : Option String :=
  (to_date_obj (row.get "createdat")).map PDate.isoformat

/-- The handsets special case in processor.process_row: if the handsets
column is configured and the row value is truthy, the dynamically mapped
choice ids overwrite that question's entry when any id was produced. -/
def merge_handsets (row : Row) (questions : Questions)
    (db_to_qid : List (String × String)) (answers : Answers) : Answers :=
  match alookup db_to_qid "handsetsandheadsets" with
  | none => answers
  | some hq =>
    if hq = "" then answers
    else
      let raw := row.get "handsetsandheadsets"
      if pyTruthy raw then
        let mapped := map_handsets_field_dynamic (dbvalAsStr raw) questions
        if mapped ≠ [] then updAssoc answers hq (.choices mapped) else answers
      else answers

/-- Result of processing one row: the (tuple) return of process_row plus a
log of the submission calls issued to the ticketing endpoint, each with
the submitted identity key and answers payload. -/
structure ProcResult where
  tracking : Tracking
  processed : Bool
  created : Option String
  email : Option DBVal
  submissions : List (DBVal × Answers)
deriving DecidableEq, Repr

/-- processor.process_row. The external create_request_on_jira call is
modelled by jira: none means the call raised, some k means it succeeded
and the issue-key extraction produced k. -/
def process_row (jira : Option String) (row : Row) (tracking : Tracking)
    (questions : Questions) (choice_map : ChoiceMap)
    (db_to_qid : List (String × String)) : ProcResult :=
  let email := rowEmail row
  if ¬ pyTruthy email then ⟨tracking, false, none, none, []⟩
  else if (alookup tracking.email_to_issue email).isSome then
    ⟨tracking, false, none, some email, []⟩
  else
    match build_form_answers row questions choice_map tracking db_to_qid with
    | (none, t) => ⟨t, false, created_iso row, some email, []⟩
    | (some answers0, t) =>
      let answers := merge_handsets row questions db_to_qid answers0
      match jira with
      | none => ⟨t, false, created_iso row, some email, [(email, answers)]⟩
      | some issue_key =>
        ⟨{ t with email_to_issue := t.email_to_issue ++ [(email, issue_key)] },
          true, created_iso row, some email, [(email, answers)]⟩

/-- The per-row loop of main.main: process each selected row in order,
threading the tracking state and collecting the identity keys submitted
during this run whose row date equals today (a set, modelled as a
duplicate-free list). The i-th processed row's submission outcome is
jira i. -/
def run_rows (today_str : String) (questions : Questions) (choice_map : ChoiceMap)
    (db_to_qid : List (String × String)) (jira : Nat → Option String) :
    List Row → Nat → Tracking → List String → Tracking × List String
  | [], _, tracking, emails => (tracking, emails)
  | row :: rest, i, tracking, emails =>
    let pr := process_row (jira i) row tracking questions choice_map db_to_qid
    let emails' :=
      if pr.processed then
        match pr.created, pr.email with
        | some d, some (.vStr e) =>
          if d = today_str ∧ e ≠ "" then
            (if emails.contains e then emails else emails ++ [e])
          else emails
        | _, _ => emails
      else emails
    run_rows today_str questions choice_map db_to_qid jira rest (i + 1) pr.tracking emails'

/-- main.main after the schema fetch and row fetch: filter, per-row loop,
finalize. The date.today() value is today_str and the fetched rows are an
input. Returns the final tracking state and how many times
finalize_tracking_after_run was called during the run. -/
def main_run (today_str : String) (rows : List Row) (tracking0 : Tracking)
    (questions : Questions) (choice_map : ChoiceMap)
    (db_to_qid : List (String × String)) (jira : Nat → Option String) :
    Tracking × Nat :=
  let rows_to_process := filter_rows_for_processing rows tracking0
  if rows_to_process = [] then (tracking0, 0)
  else
    let res := run_rows today_str questions choice_map db_to_qid jira rows_to_process 0 tracking0 []
    (finalize_tracking_after_run today_str res.1 res.2, 1)

/-- A JSON value, as json.load produces it. -/
inductive JVal where
  | jNull
  | jBool (b : Bool)
  | jNum (n : Int)
  | jStr (s : String)
  | jArr (elems : List JVal)
  | jObj (fields : List (String × JVal))
deriving Repr

/-- Condition of the tracking file when state_manager.read_tracking runs. -/
inductive FileCond where
  | missing
  | unreadable
  | invalidJson
  | content (j : JVal)

/-- state_manager.DEFAULT_STATE. -/
def DEFAULT_STATE : List (String × JVal) :=
  [("last_run_date", .jNull),
   ("processed_emails_same_date", .jArr []),
   ("email_to_issue", .jObj []),
   ("flagged_requests", .jObj [])]

/-- Python dict.setdefault(k, v): keep an existing entry (whatever its
value), append the default otherwise. -/
def setdefaultJ (d : List (String × JVal)) (k : String) (v : JVal) : List (String × JVal) :=
  if (alookup d k).isSome then d else d ++ [(k, v)]

/-- state_manager.read_tracking. A missing file, an unreadable file, a file
whose contents are not JSON, and a JSON document that is not an object
(setdefault raises, the except arm catches) all fall back to DEFAULT_STATE;
a JSON object gets each missing default key appended. -/
def read_tracking : FileCond → List (String × JVal)
  | .missing => DEFAULT_STATE
  | .unreadable => DEFAULT_STATE
  | .invalidJson => DEFAULT_STATE
  | .content j =>
    match j with
    | .jObj fields => DEFAULT_STATE.foldl (fun acc kv => setdefaultJ acc kv.1 kv.2) fields
    | _ => DEFAULT_STATE

/-- Outcome of one HTTP attempt inside fetch_form_definition_cloud: the
transport raised, or a response arrived with a status code and a body that
either parses as JSON or does not. -/
inductive AttemptResult where
  | transportRaise
  | response (status : Nat) (body : Option JVal)

/-- How jira_helpers.fetch_form_definition_cloud ends: a ValueError (input
validation or non-JSON success body), a fetched form JSON, or the terminal
RuntimeError after the attempt budget is exhausted. -/
inductive FetchOutcome where
  | valueError (msg : String)
  | fetched (j : JVal)
  | runtimeError
deriving Repr

/-- An attempt counts as failed when the transport raises or the status is
outside success set 200 and 201. -/
def attemptFails : AttemptResult → Bool
  | .transportRaise => true
  | .response st _ => ¬ (st = 200 ∨ st = 201)

/-- The retry loop of fetch_form_definition_cloud: i attempts already made,
the second argument is the remaining budget; returns the outcome and the
total number of attempts performed. -/
def fetch_loop (transport : Nat → AttemptResult) (i : Nat) :
    Nat → FetchOutcome × Nat
  | 0 => (.runtimeError, i)
  | rem + 1 =>
    match transport i with
    | .transportRaise => fetch_loop transport (i + 1) rem
    | .response st body =>
      if st = 200 ∨ st = 201 then
        match body with
        | some j => (.fetched j, i + 1)
        | none => (.valueError "Response from Jira was not JSON", i + 1)
      else fetch_loop transport (i + 1) rem

/-- jira_helpers.fetch_form_definition_cloud: empty identifiers fail fast
with a ValueError before any attempt; otherwise at most 3 attempts run. -/
def fetch_form_definition_cloud (cloud_id service_desk_id request_type_id : String)
    (transport : Nat → AttemptResult) : FetchOutcome × Nat :=
  if cloud_id = "" ∨ service_desk_id = "" ∨ request_type_id = "" then
    (.valueError "cloud_id, service_desk_id, and request_type_id must not be empty", 0)
  else fetch_loop transport 0 3

/-- The spec's description (section 4.4, step 4) of per-token single/multi
choice matching, written from its words: try the exact normalized lookup
first, and only if there is no exact match fall back to the first substring
hit against the normalized keys, in either direction; an unmatched token
yields nothing. -/
def spec_choiceTokenMatch (q_choice_map : List (String × String)) (label : String) :
    Option String :=
  match alookup q_choice_map (normalize_label label) with
  | some c => some c
  | none => fuzzy_match q_choice_map (normalize_label label)

/-! ## General lemmas about the association-list and comparison helpers -/

theorem alookup_mem {α β : Type} [DecidableEq α] {l : List (α × β)} {k : α} {v : β}
    (h : alookup l k = some v) : (k, v) ∈ l := by
  induction l with
  | nil => simp [alookup] at h
  | cons p t ih =>
    obtain ⟨a, b⟩ := p
    by_cases hk : a = k
    · subst hk
      simp [alookup] at h
      simp [h]
    · simp [alookup, hk] at h
      exact List.mem_cons_of_mem _ (ih h)

theorem alookup_append_left {α β : Type} [DecidableEq α] {l1 : List (α × β)}
    (l2 : List (α × β)) {k : α} {v : β} (h : alookup l1 k = some v) :
    alookup (l1 ++ l2) k = some v := by
  induction l1 with
  | nil => simp [alookup] at h
  | cons p t ih =>
    obtain ⟨a, b⟩ := p
    by_cases hk : a = k
    · subst hk
      simp [alookup] at h ⊢
      exact h
    · simp [alookup, hk] at h ⊢
      exact ih h

theorem alookup_append_none {α β : Type} [DecidableEq α] {l1 : List (α × β)}
    (l2 : List (α × β)) {k : α} (h : alookup l1 k = none) :
    alookup (l1 ++ l2) k = alookup l2 k := by
  induction l1 with
  | nil => simp
  | cons p t ih =>
    obtain ⟨a, b⟩ := p
    by_cases hk : a = k
    · subst hk
      simp [alookup] at h
    · simp [alookup, hk] at h ⊢
      exact ih h

theorem charsLt_irrefl (l : List Char) : charsLt l l = false := by
  induction l with
  | nil => rfl
  | cons a t ih => simp [charsLt, ih]

theorem charsLt_asymm {l1 l2 : List Char} (h : charsLt l1 l2 = true) :
    charsLt l2 l1 = false := by
  induction l1 generalizing l2 with
  | nil =>
    cases l2 with
    | nil => simp [charsLt] at h
    | cons b bs => rfl
  | cons a as ih =>
    cases l2 with
    | nil => simp [charsLt] at h
    | cons b bs =>
      simp only [charsLt] at h ⊢
      by_cases hab : a < b
      · have hba : ¬ b < a := lt_asymm hab
        simp [hab, hba]
      · by_cases hba : b < a
        · simp [hab, hba] at h
        · rw [if_neg hab, if_neg hba] at h
          rw [if_neg hba, if_neg hab]
          exact ih h

theorem pyStrLt_irrefl (s : String) : pyStrLt s s = false := by
  simp [pyStrLt, charsLt_irrefl]

theorem pyStrLt_asymm {a b : String} (h : pyStrLt a b = true) : pyStrLt b a = false := by
  simpa [pyStrLt] using charsLt_asymm (by simpa [pyStrLt] using h)

theorem pyStrLt_ne {a b : String} (h : pyStrLt a b = true) : a ≠ b := by
  intro he
  subst he
  simp [pyStrLt_irrefl] at h

/-! ## Lemmas about setdefault and the tracking-state load -/

theorem alookup_setdefaultJ_self (d : List (String × JVal)) (k : String) (v : JVal) :
    alookup (setdefaultJ d k v) k = some ((alookup d k).getD v) := by
  unfold setdefaultJ
  cases h : alookup d k with
  | some w => simp [h]
  | none =>
    simp only [h, Option.isSome_none, Bool.false_eq_true, if_false]
    rw [alookup_append_none _ h]
    simp [alookup]

theorem alookup_setdefaultJ_other (d : List (String × JVal)) (k k' : String) (v : JVal)
    (h : k' ≠ k) : alookup (setdefaultJ d k v) k' = alookup d k' := by
  unfold setdefaultJ
  cases hd : alookup d k with
  | some w => simp [hd]
  | none =>
    simp only [hd, Option.isSome_none, Bool.false_eq_true, if_false]
    cases hd' : alookup d k' with
    | some w => exact alookup_append_left _ hd'
    | none =>
      rw [alookup_append_none _ hd']
      simp [alookup, Ne.symm h]

theorem read_tracking_obj (fs : List (String × JVal)) :
    read_tracking (.content (.jObj fs)) =
      setdefaultJ (setdefaultJ (setdefaultJ (setdefaultJ fs "last_run_date" .jNull)
        "processed_emails_same_date" (.jArr [])) "email_to_issue" (.jObj []))
        "flagged_requests" (.jObj []) := rfl

/-- C7: the tracking-store load never raises: a missing, unreadable or
corrupt backing file (including a JSON document that is not an object)
yields the documented default state; for a readable object, every
default-state field is filled in only when missing (an existing value, even
null, is kept), and every existing field, related or not, is preserved
unchanged. -/
theorem read_tracking_default_resilience :
    (read_tracking .missing = DEFAULT_STATE ∧
     read_tracking .unreadable = DEFAULT_STATE ∧
     read_tracking .invalidJson = DEFAULT_STATE ∧
     (∀ b, read_tracking (.content (.jBool b)) = DEFAULT_STATE) ∧
     (∀ n, read_tracking (.content (.jNum n)) = DEFAULT_STATE) ∧
     (∀ s, read_tracking (.content (.jStr s)) = DEFAULT_STATE) ∧
     (∀ xs, read_tracking (.content (.jArr xs)) = DEFAULT_STATE) ∧
     read_tracking (.content .jNull) = DEFAULT_STATE) ∧
    (∀ fs k v, (k, v) ∈ DEFAULT_STATE →
       alookup (read_tracking (.content (.jObj fs))) k = some ((alookup fs k).getD v)) ∧
    (∀ fs k w, alookup fs k = some w →
       alookup (read_tracking (.content (.jObj fs))) k = some w) := by
  refine ⟨⟨rfl, rfl, rfl, fun _ => rfl, fun _ => rfl, fun _ => rfl, fun _ => rfl, rfl⟩, ?_, ?_⟩
  · intro fs k v hmem
    rw [read_tracking_obj]
    simp only [DEFAULT_STATE, List.mem_cons, List.not_mem_nil, or_false] at hmem
    rcases hmem with h | h | h | h <;> rw [Prod.ext_iff] at h <;> obtain ⟨rfl, rfl⟩ := h
    · rw [alookup_setdefaultJ_other _ _ _ _ (by decide),
        alookup_setdefaultJ_other _ _ _ _ (by decide),
        alookup_setdefaultJ_other _ _ _ _ (by decide),
        alookup_setdefaultJ_self]
    · rw [alookup_setdefaultJ_other _ _ _ _ (by decide),
        alookup_setdefaultJ_other _ _ _ _ (by decide),
        alookup_setdefaultJ_self,
        alookup_setdefaultJ_other _ _ _ _ (by decide)]
    · rw [alookup_setdefaultJ_other _ _ _ _ (by decide),
        alookup_setdefaultJ_self,
        alookup_setdefaultJ_other _ _ _ _ (by decide),
        alookup_setdefaultJ_other _ _ _ _ (by decide)]
    · rw [alookup_setdefaultJ_self,
        alookup_setdefaultJ_other _ _ _ _ (by decide),
        alookup_setdefaultJ_other _ _ _ _ (by decide),
        alookup_setdefaultJ_other _ _ _ _ (by decide)]
  · intro fs k w h
    rw [read_tracking_obj]
    have p : ∀ (d : List (String × JVal)) (k0 : String) (v0 : JVal),
        alookup d k = some w → alookup (setdefaultJ d k0 v0) k = some w := by
      intro d k0 v0 hd
      by_cases hk : k = k0
      · subst hk
        rw [alookup_setdefaultJ_self, hd]
        rfl
      · rw [alookup_setdefaultJ_other _ _ _ _ hk]
        exact hd
    exact p _ _ _ (p _ _ _ (p _ _ _ (p _ _ _ h)))

/-- C7 witness: a legacy file holding only an email_to_issue mapping and an
unrelated custom field gets the three missing defaults, keeps its mapping,
and keeps the unrelated field. -/
theorem read_tracking_default_resilience_witness :
    alookup (read_tracking (.content (.jObj
      [("email_to_issue", .jObj [("a@x.com", .jStr "K-1")]), ("custom", .jNum 7)])))
      "last_run_date" = some .jNull ∧
    alookup (read_tracking (.content (.jObj
      [("email_to_issue", .jObj [("a@x.com", .jStr "K-1")]), ("custom", .jNum 7)])))
      "email_to_issue" = some (.jObj [("a@x.com", .jStr "K-1")]) ∧
    alookup (read_tracking (.content (.jObj
      [("email_to_issue", .jObj [("a@x.com", .jStr "K-1")]), ("custom", .jNum 7)])))
      "custom" = some (.jNum 7) := by
  refine ⟨?_, ?_, ?_⟩
  · have h := read_tracking_default_resilience.2.1
      [("email_to_issue", .jObj [("a@x.com", .jStr "K-1")]), ("custom", .jNum 7)]
      "last_run_date" .jNull (by simp [DEFAULT_STATE])
    rw [h]
    rfl
  · have h := read_tracking_default_resilience.2.2
      [("email_to_issue", .jObj [("a@x.com", .jStr "K-1")]), ("custom", .jNum 7)]
      "email_to_issue" (.jObj [("a@x.com", .jStr "K-1")]) (by rfl)
    exact h
  · have h := read_tracking_default_resilience.2.2
      [("email_to_issue", .jObj [("a@x.com", .jStr "K-1")]), ("custom", .jNum 7)]
      "custom" (.jNum 7) (by rfl)
    exact h

/-- C9: finalization touches only the watermark and the same-day dedup set:
the email_to_issue mapping and the flagged_requests mapping come out of
finalize_tracking_after_run exactly as they went in. -/
theorem finalize_tracking_after_run_frame (today_str : String) (tracking : Tracking)
    (emails_processed_today : List String) :
    (finalize_tracking_after_run today_str tracking emails_processed_today).email_to_issue =
        tracking.email_to_issue ∧
    (finalize_tracking_after_run today_str tracking emails_processed_today).flagged_requests =
        tracking.flagged_requests :=
  ⟨rfl, rfl⟩

/-! ## Lemmas about the schema-fetch retry loop -/

theorem fetch_loop_succ (transport : Nat → AttemptResult) (i rem : Nat) :
    fetch_loop transport i (rem + 1) =
      match transport i with
      | .transportRaise => fetch_loop transport (i + 1) rem
      | .response st body =>
        if st = 200 ∨ st = 201 then
          match body with
          | some j => (.fetched j, i + 1)
          | none => (.valueError "Response from Jira was not JSON", i + 1)
        else fetch_loop transport (i + 1) rem := rfl

theorem fetch_loop_step_fail (transport : Nat → AttemptResult) (i rem : Nat)
    (h : attemptFails (transport i) = true) :
    fetch_loop transport i (rem + 1) = fetch_loop transport (i + 1) rem := by
  rw [fetch_loop_succ]
  cases ht : transport i with
  | transportRaise => rfl
  | response st body =>
    rw [ht] at h
    simp only [attemptFails] at h
    have hn : ¬ (st = 200 ∨ st = 201) := of_decide_eq_true h
    simp [hn]

theorem fetch_loop_step_ok_json (transport : Nat → AttemptResult) (i rem : Nat)
    (st : Nat) (j : JVal) (ht : transport i = .response st (some j))
    (h : st = 200 ∨ st = 201) :
    fetch_loop transport i (rem + 1) = (.fetched j, i + 1) := by
  rw [fetch_loop_succ, ht]
  simp [h]

theorem fetch_loop_step_ok_nojson (transport : Nat → AttemptResult) (i rem : Nat)
    (st : Nat) (ht : transport i = .response st none)
    (h : st = 200 ∨ st = 201) :
    fetch_loop transport i (rem + 1) =
      (.valueError "Response from Jira was not JSON", i + 1) := by
  rw [fetch_loop_succ, ht]
  simp [h]

theorem fetch_loop_count (transport : Nat → AttemptResult) :
    ∀ rem i, (fetch_loop transport i rem).2 ≤ i + rem := by
  intro rem
  induction rem with
  | zero =>
    intro i
    simp [fetch_loop]
  | succ n ih =>
    intro i
    rw [fetch_loop_succ]
    cases ht : transport i with
    | transportRaise =>
      calc (fetch_loop transport (i + 1) n).2 ≤ (i + 1) + n := ih (i + 1)
        _ = i + (n + 1) := by omega
    | response st body =>
      by_cases h : st = 200 ∨ st = 201
      · cases body <;> simp [h]
      · simp only [h, if_false]
        calc (fetch_loop transport (i + 1) n).2 ≤ (i + 1) + n := ih (i + 1)
          _ = i + (n + 1) := by omega

/-- C8: the schema fetch fails fast on any empty identifier without touching
the network (zero attempts); it performs at most 3 attempts, an attempt
failing when the transport raises or the status is outside the 200/201 set;
a success-status response with a JSON body is returned at that attempt; a
success-status response with a non-JSON body raises a ValueError immediately
without consuming further attempts; and three failed attempts end in the
terminal RuntimeError. -/
theorem fetch_form_definition_cloud_spec :
    (∀ transport cid sid rid, (cid = "" ∨ sid = "" ∨ rid = "") →
       fetch_form_definition_cloud cid sid rid transport =
         (.valueError "cloud_id, service_desk_id, and request_type_id must not be empty", 0)) ∧
    (∀ transport cid sid rid,
       (fetch_form_definition_cloud cid sid rid transport).2 ≤ 3) ∧
    (∀ transport cid sid rid, cid ≠ "" → sid ≠ "" → rid ≠ "" →
       ∀ k, k < 3 → (∀ j, j < k → attemptFails (transport j) = true) →
         ∀ st, (st = 200 ∨ st = 201) →
           (∀ j, transport k = .response st (some j) →
              fetch_form_definition_cloud cid sid rid transport = (.fetched j, k + 1)) ∧
           (transport k = .response st none →
              fetch_form_definition_cloud cid sid rid transport =
                (.valueError "Response from Jira was not JSON", k + 1))) ∧
    (∀ transport cid sid rid, cid ≠ "" → sid ≠ "" → rid ≠ "" →
       (∀ j, j < 3 → attemptFails (transport j) = true) →
         fetch_form_definition_cloud cid sid rid transport = (.runtimeError, 3)) := by
  refine ⟨?_, ?_, ?_, ?_⟩
  · intro transport cid sid rid h
    unfold fetch_form_definition_cloud
    rw [if_pos h]
  · intro transport cid sid rid
    unfold fetch_form_definition_cloud
    by_cases h : cid = "" ∨ sid = "" ∨ rid = ""
    · simp [h]
    · simp only [h, if_false]
      simpa using fetch_loop_count transport 3 0
  · intro transport cid sid rid hc hs hr k hk hfail st hok
    have hguard : ¬ (cid = "" ∨ sid = "" ∨ rid = "") := by
      push_neg
      exact ⟨hc, hs, hr⟩
    constructor
    · intro j ht
      unfold fetch_form_definition_cloud
      rw [if_neg hguard]
      interval_cases k
      · exact fetch_loop_step_ok_json transport 0 2 st j ht hok
      · have h1 : fetch_loop transport 0 3 = fetch_loop transport 1 2 :=
          fetch_loop_step_fail transport 0 2 (hfail 0 (by omega))
        rw [h1]
        exact fetch_loop_step_ok_json transport 1 1 st j ht hok
      · have h1 : fetch_loop transport 0 3 = fetch_loop transport 1 2 :=
          fetch_loop_step_fail transport 0 2 (hfail 0 (by omega))
        have h2 : fetch_loop transport 1 2 = fetch_loop transport 2 1 :=
          fetch_loop_step_fail transport 1 1 (hfail 1 (by omega))
        rw [h1, h2]
        exact fetch_loop_step_ok_json transport 2 0 st j ht hok
    · intro ht
      unfold fetch_form_definition_cloud
      rw [if_neg hguard]
      interval_cases k
      · exact fetch_loop_step_ok_nojson transport 0 2 st ht hok
      · have h1 : fetch_loop transport 0 3 = fetch_loop transport 1 2 :=
          fetch_loop_step_fail transport 0 2 (hfail 0 (by omega))
        rw [h1]
        exact fetch_loop_step_ok_nojson transport 1 1 st ht hok
      · have h1 : fetch_loop transport 0 3 = fetch_loop transport 1 2 :=
          fetch_loop_step_fail transport 0 2 (hfail 0 (by omega))
        have h2 : fetch_loop transport 1 2 = fetch_loop transport 2 1 :=
          fetch_loop_step_fail transport 1 1 (hfail 1 (by omega))
        rw [h1, h2]
        exact fetch_loop_step_ok_nojson transport 2 0 st ht hok
  · intro transport cid sid rid hc hs hr hfail
    unfold fetch_form_definition_cloud
    have hguard : ¬ (cid = "" ∨ sid = "" ∨ rid = "") := by
      push_neg
      exact ⟨hc, hs, hr⟩
    rw [if_neg hguard]
    have h1 : fetch_loop transport 0 3 = fetch_loop transport 1 2 :=
      fetch_loop_step_fail transport 0 2 (hfail 0 (by omega))
    have h2 : fetch_loop transport 1 2 = fetch_loop transport 2 1 :=
      fetch_loop_step_fail transport 1 1 (hfail 1 (by omega))
    have h3 : fetch_loop transport 2 1 = fetch_loop transport 3 0 :=
      fetch_loop_step_fail transport 2 0 (hfail 2 (by omega))
    rw [h1, h2, h3]
    rfl

/-- C8 witness: with non-empty identifiers, a 500 on the first attempt and a
success-status non-JSON body on the second, the fetch stops after exactly 2
attempts with the non-JSON ValueError. -/
theorem fetch_form_definition_cloud_spec_witness :
    fetch_form_definition_cloud "cloud" "desk" "rt"
      (fun i => if i = 0 then .response 500 none else .response 200 none) =
      (.valueError "Response from Jira was not JSON", 2) := by
  have h := (fetch_form_definition_cloud_spec.2.2.1
    (fun i => if i = 0 then .response 500 none else .response 200 none)
    "cloud" "desk" "rt" (by decide) (by decide) (by decide) 1 (by omega)
    (by
      intro j hj
      interval_cases j
      rfl)
    200 (Or.inl rfl)).2 rfl
  exact h

/-! ## Row processing: idempotency on the email_to_issue mapping -/

theorem build_form_answers_email_to_issue (row : Row) (questions : Questions)
    (choice_map : ChoiceMap) (tracking : Tracking) (db_to_qid : List (String × String)) :
    (build_form_answers row questions choice_map tracking db_to_qid).2.email_to_issue =
      tracking.email_to_issue := by
  simp only [build_form_answers]
  repeat' split
  all_goals simp [flagRequest]

/-- C2: if the tracking state already maps the row's identity key to a
ticket reference, process_row returns the state unchanged, marks the row
unprocessed and issues no submission call; and for any row whatsoever, an
existing email_to_issue entry still resolves to the same ticket reference
after process_row (the mapping is append-only, never overwritten). -/
theorem process_row_idempotent :
    (∀ jira row tracking questions choice_map db_to_qid e k,
       rowEmail row = e → pyTruthy e = true →
       alookup tracking.email_to_issue e = some k →
       process_row jira row tracking questions choice_map db_to_qid =
         ⟨tracking, false, none, some e, []⟩) ∧
    (∀ jira row tracking questions choice_map db_to_qid e k,
       alookup tracking.email_to_issue e = some k →
       alookup (process_row jira row tracking questions choice_map db_to_qid).tracking.email_to_issue
         e = some k) := by
  constructor
  · intro jira row tracking questions choice_map db_to_qid e k he htruthy hlk
    simp only [process_row]
    rw [he]
    simp [htruthy, hlk]
  · intro jira row tracking questions choice_map db_to_qid e k hlk
    simp only [process_row]
    by_cases h1 : pyTruthy (rowEmail row) = true
    · by_cases h2 : (alookup tracking.email_to_issue (rowEmail row)).isSome = true
      · simp [h1, h2, hlk]
      · rcases hbfa : build_form_answers row questions choice_map tracking db_to_qid with ⟨fa, t2⟩
        have ht2 : t2.email_to_issue = tracking.email_to_issue := by
          have h := build_form_answers_email_to_issue row questions choice_map tracking db_to_qid
          rw [hbfa] at h
          exact h
        cases fa with
        | none => simp [h1, h2, hbfa, ht2, hlk]
        | some answers =>
          cases jira with
          | none => simp [h1, h2, hbfa, ht2, hlk]
          | some issue_key =>
            simp only [h1, h2, hbfa]
            simp only [Bool.not_true, Bool.false_eq_true, if_false]
            rw [ht2]
            exact alookup_append_left _ hlk
    · simp [h1, hlk]

/-- C2 witness: a row whose identity key already maps to K-1 is returned
untouched, unprocessed, with no submission logged, even though the
submission oracle would have provided K-2. -/
theorem process_row_idempotent_witness :
    process_row (some "K-2") [("email", DBVal.vStr "a@x.com")]
      ⟨some "2024-05-01", [], [(DBVal.vStr "a@x.com", "K-1")], []⟩ [] [] [] =
      ⟨⟨some "2024-05-01", [], [(DBVal.vStr "a@x.com", "K-1")], []⟩, false, none,
        some (DBVal.vStr "a@x.com"), []⟩ :=
  process_row_idempotent.1 (some "K-2") [("email", DBVal.vStr "a@x.com")]
    ⟨some "2024-05-01", [], [(DBVal.vStr "a@x.com", "K-1")], []⟩ [] [] []
    (DBVal.vStr "a@x.com") "K-1" (by decide) (by decide) (by decide)

/-! ## The incremental filter -/

theorem mem_filter_rows (rows : List Row) (t : Tracking) (r : Row) :
    r ∈ filter_rows_for_processing rows t ↔ r ∈ rows ∧ keep_row t r = true := by
  induction rows with
  | nil => simp [filter_rows_for_processing]
  | cons a rs ih =>
    simp only [filter_rows_for_processing]
    by_cases h : keep_row t a = true
    · rw [if_pos h]
      simp only [List.mem_cons, ih]
      constructor
      · rintro (rfl | ⟨hm, hk⟩)
        · exact ⟨Or.inl rfl, h⟩
        · exact ⟨Or.inr hm, hk⟩
      · rintro ⟨rfl | hm, hk⟩
        · exact Or.inl rfl
        · exact Or.inr ⟨hm, hk⟩
    · rw [if_neg h, ih]
      simp only [List.mem_cons]
      constructor
      · rintro ⟨hm, hk⟩
        exact ⟨Or.inr hm, hk⟩
      · rintro ⟨rfl | hm, hk⟩
        · exact absurd hk h
        · exact ⟨hm, hk⟩

/-- C10: the incremental filter consults the email field only for rows whose
date equals the watermark: a watermark-dated row with a falsy (missing or
empty) email is always skipped, while a strictly newer row, or any row on a
first-ever run, is included regardless of its email field. -/
theorem filter_email_checked_only_on_watermark :
    ∀ rows t r rd, to_date_obj (Row.get r "createdat") = some rd →
      ((∀ w, t.last_run_date = some w → rd.isoformat = w →
          pyTruthy (rowEmail r) = false →
          r ∉ filter_rows_for_processing rows t) ∧
       (∀ w, t.last_run_date = some w → pyStrLt w rd.isoformat = true →
          r ∈ rows → r ∈ filter_rows_for_processing rows t) ∧
       (t.last_run_date = none → r ∈ rows → r ∈ filter_rows_for_processing rows t)) := by
  intro rows t r rd hd
  refine ⟨?_, ?_, ?_⟩
  · intro w hw hiso hem hmem
    rw [mem_filter_rows] at hmem
    obtain ⟨-, hk⟩ := hmem
    simp [keep_row, hd, hw, hiso, pyStrLt_irrefl, hem] at hk
  · intro w hw hlt hmem
    rw [mem_filter_rows]
    refine ⟨hmem, ?_⟩
    simp [keep_row, hd, hw, hlt]
  · intro hnone hmem
    rw [mem_filter_rows]
    exact ⟨hmem, by simp [keep_row, hd, hnone]⟩

/-- C10 witness: on a first-ever run (no watermark) a row carrying only a
created date and no email at all is selected. -/
theorem filter_email_checked_only_on_watermark_witness :
    [("createdat", DBVal.vStr "2024-05-01")] ∈
      filter_rows_for_processing [[("createdat", DBVal.vStr "2024-05-01")]]
        ⟨none, [], [], []⟩ :=
  (filter_email_checked_only_on_watermark
      [[("createdat", DBVal.vStr "2024-05-01")]] ⟨none, [], [], []⟩
      [("createdat", DBVal.vStr "2024-05-01")] ⟨2024, 5, 1⟩ (by decide)).2.2
    rfl (by simp)

/-- C1: the incremental filter includes a row exactly by the documented
rules: no watermark means every row with a parseable date is included; a
row strictly newer than the watermark is included; a row dated exactly at
the watermark whose identity key is a nonempty email is included iff that
key is absent from processed_emails_same_date; a row strictly older is
excluded; and a row whose created date fails to parse is excluded. -/
theorem filter_rows_for_processing_rules :
    ∀ rows t r, r ∈ rows →
      ((to_date_obj (Row.get r "createdat") = none →
          r ∉ filter_rows_for_processing rows t) ∧
       (∀ rd, to_date_obj (Row.get r "createdat") = some rd →
         ((t.last_run_date = none → r ∈ filter_rows_for_processing rows t) ∧
          (∀ w, t.last_run_date = some w →
            ((pyStrLt w rd.isoformat = true → r ∈ filter_rows_for_processing rows t) ∧
             (rd.isoformat = w → ∀ e, rowEmail r = DBVal.vStr e → e ≠ "" →
                (r ∈ filter_rows_for_processing rows t ↔
                  e ∉ t.processed_emails_same_date)) ∧
             (pyStrLt rd.isoformat w = true →
                r ∉ filter_rows_for_processing rows t)))))) := by
  intro rows t r hmem
  constructor
  · intro hd hin
    rw [mem_filter_rows] at hin
    obtain ⟨-, hk⟩ := hin
    simp [keep_row, hd] at hk
  · intro rd hd
    constructor
    · intro hnone
      rw [mem_filter_rows]
      exact ⟨hmem, by simp [keep_row, hd, hnone]⟩
    · intro w hw
      refine ⟨?_, ?_, ?_⟩
      · intro hlt
        rw [mem_filter_rows]
        exact ⟨hmem, by simp [keep_row, hd, hw, hlt]⟩
      · intro hiso e he hne
        have hkeep : keep_row t r = !(t.processed_emails_same_date.contains e) := by
          simp [keep_row, hd, hw, hiso, pyStrLt_irrefl, he, emailInList, pyTruthy, hne]
        rw [mem_filter_rows, hkeep]
        constructor
        · rintro ⟨-, hk⟩
          simpa using hk
        · intro hnot
          refine ⟨hmem, ?_⟩
          simpa using hnot
      · intro hlt hin
        rw [mem_filter_rows] at hin
        obtain ⟨-, hk⟩ := hin
        have h1 : pyStrLt w rd.isoformat = false := pyStrLt_asymm hlt
        have h2 : rd.isoformat ≠ w := pyStrLt_ne hlt
        simp [keep_row, hd, hw, h1, h2] at hk

/-- C1 witness: with watermark 2024-05-01 and a@x.com already processed that
day, a watermark-dated row for b@x.com is selected. -/
theorem filter_rows_for_processing_rules_witness :
    [("createdat", DBVal.vStr "2024-05-01"), ("email", DBVal.vStr "b@x.com")] ∈
      filter_rows_for_processing
        [[("createdat", DBVal.vStr "2024-05-01"), ("email", DBVal.vStr "b@x.com")]]
        ⟨some "2024-05-01", ["a@x.com"], [], []⟩ := by
  have h := ((filter_rows_for_processing_rules
      [[("createdat", DBVal.vStr "2024-05-01"), ("email", DBVal.vStr "b@x.com")]]
      ⟨some "2024-05-01", ["a@x.com"], [], []⟩
      [("createdat", DBVal.vStr "2024-05-01"), ("email", DBVal.vStr "b@x.com")]
      (by simp)).2 ⟨2024, 5, 1⟩ (by decide)).2 "2024-05-01" rfl
  exact (h.2.1 (by decide) "b@x.com" (by decide) (by decide)).mpr (by decide)

/-! ## Finalization and the orchestrator -/

/-- C3 counterexample: the claim says finalize runs once at run end
regardless of how many rows were selected, but with an up-to-date watermark
and no candidate rows the orchestrator returns before finalization: zero
finalize calls, not one. -/
theorem main_run_finalize_skipped_counterexample :
    ¬ ((main_run "2024-05-02" [] ⟨some "2024-05-01", [], [], []⟩ [] [] []
        (fun _ => none)).2 = 1) := by decide

/-- C3 (amended): when at least one row survives the incremental filter,
finalize_tracking_after_run is called exactly once at run end, on the
loop's final tracking state and the identity keys submitted this run whose
row date equals today; when no row survives, the run exits early and
finalize is never called; and finalization sets the watermark to the
current calendar date and replaces processed_emails_same_date wholesale
with the sorted deduplicated submitted-today keys, ignoring its previous
contents. -/
theorem main_run_finalize_spec :
    (∀ today rows t0 questions choice_map db_to_qid jira,
       filter_rows_for_processing rows t0 ≠ [] →
       main_run today rows t0 questions choice_map db_to_qid jira =
         (finalize_tracking_after_run today
            (run_rows today questions choice_map db_to_qid jira
              (filter_rows_for_processing rows t0) 0 t0 []).1
            (run_rows today questions choice_map db_to_qid jira
              (filter_rows_for_processing rows t0) 0 t0 []).2, 1)) ∧
    (∀ today rows t0 questions choice_map db_to_qid jira,
       filter_rows_for_processing rows t0 = [] →
       main_run today rows t0 questions choice_map db_to_qid jira = (t0, 0)) ∧
    (∀ today t emails,
       (finalize_tracking_after_run today t emails).last_run_date = some today ∧
       (finalize_tracking_after_run today t emails).processed_emails_same_date =
         sortedUnique emails) := by
  refine ⟨?_, ?_, fun today t emails => ⟨rfl, rfl⟩⟩
  · intro today rows t0 questions choice_map db_to_qid jira h
    simp only [main_run]
    rw [if_neg h]
  · intro today rows t0 questions choice_map db_to_qid jira h
    simp only [main_run]
    rw [if_pos h]

/-- C3 witness: a first-ever run over one row performs exactly one
finalization. -/
theorem main_run_finalize_spec_witness :
    (main_run "2024-05-02"
      [[("createdat", DBVal.vStr "2024-05-02"), ("email", DBVal.vStr "b@x.com")]]
      ⟨none, [], [], []⟩ [] [] [] (fun _ => none)).2 = 1 := by
  have h := main_run_finalize_spec.1 "2024-05-02"
    [[("createdat", DBVal.vStr "2024-05-02"), ("email", DBVal.vStr "b@x.com")]]
    ⟨none, [], [], []⟩ [] [] [] (fun _ => none) (by decide)
  rw [h]

/-! ## The multi-value handset mapper -/

theorem hs_loop_eq (label_map : List (String × String))
    (h : ∀ p ∈ label_map, p.2 ≠ "") :
    ∀ ps seen, hs_loop label_map seen ps =
      seen ++ dedupFirstAux seen
        (ps.map (fun p => (alookup label_map (normalize_label p)).getD "0")) := by
  intro ps
  induction ps with
  | nil =>
    intro seen
    simp [hs_loop, dedupFirstAux]
  | cons p ps ih =>
    intro seen
    have hnid : (match alookup label_map (normalize_label p) with
        | some c => if c ≠ "" then c else "0"
        | none => "0") = (alookup label_map (normalize_label p)).getD "0" := by
      cases hc : alookup label_map (normalize_label p) with
      | none => rfl
      | some c =>
        have hcne : c ≠ "" := h _ (alookup_mem hc)
        simp [hcne]
    simp only [hs_loop, List.map_cons, dedupFirstAux]
    rw [hnid]
    by_cases hm : seen.contains ((alookup label_map (normalize_label p)).getD "0")
    · rw [if_pos hm, if_pos hm]
      exact ih seen
    · rw [if_neg hm, if_neg hm, ih _]
      simp

/-- C4: the handset mapper returns an empty list on absent or empty input;
on any input it computes exactly the spec's pipeline: split on semicolons,
trim, drop blanks, normalize, look each part up in the handset question's
label table, send unmatched labels to the sentinel "0", and suppress
duplicate choice-ids preserving first-seen order; in particular the spec's
example input over the two-entry table yields exactly 10, 11, 0. -/
theorem map_handsets_field_dynamic_spec :
    (∀ questions, map_handsets_field_dynamic none questions = [] ∧
       map_handsets_field_dynamic (some "") questions = []) ∧
    (∀ raw questions,
       (∀ p ∈ handset_label_map ((alookup questions "159").getD ⟨"", []⟩).choices, p.2 ≠ "") →
       map_handsets_field_dynamic raw questions = spec_mapMultiValueField raw questions) ∧
    (map_handsets_field_dynamic (some "Cordless handset; Mobile phone; Unknown Gadget")
        [("159", ⟨"cm", [⟨some "Cordless handset", some "10"⟩,
          ⟨some "Mobile phone", some "11"⟩]⟩)] =
      ["10", "11", "0"]) := by
  refine ⟨fun questions => ⟨rfl, rfl⟩, ?_, by decide⟩
  intro raw questions h
  cases raw with
  | none => rfl
  | some rv =>
    by_cases hrv : rv = ""
    · subst hrv
      rfl
    · simp only [map_handsets_field_dynamic, spec_mapMultiValueField, hrv, if_false,
        dedupKeepFirst]
      rw [hs_loop_eq _ h]
      simp

/-- C4 witness: a raw value with a repeated label and an unknown label maps
identically under the code and under the spec pipeline. -/
theorem map_handsets_field_dynamic_spec_witness :
    map_handsets_field_dynamic (some "Mobile phone; Mobile phone; X")
        [("159", ⟨"cm", [⟨some "Cordless handset", some "10"⟩,
          ⟨some "Mobile phone", some "11"⟩]⟩)] =
      spec_mapMultiValueField (some "Mobile phone; Mobile phone; X")
        [("159", ⟨"cm", [⟨some "Cordless handset", some "10"⟩,
          ⟨some "Mobile phone", some "11"⟩]⟩)] :=
  map_handsets_field_dynamic_spec.2.1 (some "Mobile phone; Mobile phone; X")
    [("159", ⟨"cm", [⟨some "Cordless handset", some "10"⟩,
      ⟨some "Mobile phone", some "11"⟩]⟩)] (by decide)

/-! ## Timeframe validation in the answers builder -/

/-- C5: for a row whose normalized timeframe is temporary (and whose
timeframe maps to a choice id), the builder rejects and flags the row
whenever the needed-by or ending date fails to parse (reason: missing
dates) or the ending date is not strictly after the needed-by date,
equality included (reason: end not after start); when both dates parse and
the ending date is strictly later the row is not rejected on this ground
and nothing is flagged. For a normalized timeframe of permanent the dates
are ignored entirely: the builder succeeds and flags nothing no matter
what the ending date holds. -/
theorem build_form_answers_temporary_validation :
    ∀ row questions choice_map tracking db_to_qid,
      optStrTruthy (timeframe_choice_id_of row choice_map db_to_qid) = true →
      ((timeframe_norm_of row = "temporary" →
        ((to_date_obj (Row.get row "dateneededby") = none ∨
            to_date_obj (Row.get row "approximateendingdate") = none) →
           build_form_answers row questions choice_map tracking db_to_qid =
             (none, flagRequest tracking (rowEmail row)
               "Missing date(s) for temporary request")) ∧
        (∀ dn ae, to_date_obj (Row.get row "dateneededby") = some dn →
           to_date_obj (Row.get row "approximateendingdate") = some ae →
           ((PDate.lt dn ae = false →
               build_form_answers row questions choice_map tracking db_to_qid =
                 (none, flagRequest tracking (rowEmail row)
                   "approximateendingdate <= dateneededby")) ∧
            (PDate.lt dn ae = true →
               (build_form_answers row questions choice_map tracking db_to_qid).1.isSome
                   = true ∧
               (build_form_answers row questions choice_map tracking db_to_qid).2 =
                 tracking)))) ∧
       (timeframe_norm_of row = "permanent" →
          (build_form_answers row questions choice_map tracking db_to_qid).1.isSome = true ∧
          (build_form_answers row questions choice_map tracking db_to_qid).2 = tracking)) := by
  intro row questions choice_map tracking db_to_qid hcid
  constructor
  · intro htmp
    constructor
    · intro hdates
      cases hdn : to_date_obj (Row.get row "dateneededby") with
      | none => simp [build_form_answers, hcid, htmp, hdn]
      | some dn =>
        cases hae : to_date_obj (Row.get row "approximateendingdate") with
        | none => simp [build_form_answers, hcid, htmp, hdn, hae]
        | some ae =>
          rcases hdates with h | h
          · rw [hdn] at h
            exact absurd h (by simp)
          · rw [hae] at h
            exact absurd h (by simp)
    · intro dn ae hdn hae
      constructor
      · intro hlt
        simp [build_form_answers, hcid, htmp, hdn, hae, hlt]
      · intro hlt
        constructor <;> simp [build_form_answers, hcid, htmp, hdn, hae, hlt]
  · intro hperm
    have hne : timeframe_norm_of row ≠ "temporary" := by
      rw [hperm]
      decide
    constructor <;> simp [build_form_answers, hcid, hne]

/-- C5 witness: a temporary request whose ending date precedes its needed-by
date is rejected and flagged with the date-ordering reason. -/
theorem build_form_answers_temporary_validation_witness :
    build_form_answers
      [("email", DBVal.vStr "t@x.com"), ("timeframe", DBVal.vStr "Temporary"),
       ("dateneededby", DBVal.vStr "2024-06-01"),
       ("approximateendingdate", DBVal.vStr "2024-05-01")]
      [] [("77", [("temporary", "5"), ("permanent", "6")])] ⟨none, [], [], []⟩
      [("timeframe", "77")] =
      (none, flagRequest ⟨none, [], [], []⟩ (DBVal.vStr "t@x.com")
        "approximateendingdate <= dateneededby") := by
  have h := ((build_form_answers_temporary_validation
      [("email", DBVal.vStr "t@x.com"), ("timeframe", DBVal.vStr "Temporary"),
       ("dateneededby", DBVal.vStr "2024-06-01"),
       ("approximateendingdate", DBVal.vStr "2024-05-01")]
      [] [("77", [("temporary", "5"), ("permanent", "6")])] ⟨none, [], [], []⟩
      [("timeframe", "77")] (by decide)).1 (by decide)).2
      ⟨2024, 6, 1⟩ ⟨2024, 5, 1⟩ (by decide) (by decide)
  exact h.1 (by decide)

/-! ## Choice-token matching in the answers builder -/

theorem choice_token_ids_eq (q_choice_map : List (String × String))
    (h : ∀ p ∈ q_choice_map, p.2 ≠ "") :
    ∀ labels, choice_token_ids q_choice_map labels =
      labels.filterMap (spec_choiceTokenMatch q_choice_map) := by
  intro labels
  induction labels with
  | nil => rfl
  | cons l ls ih =>
    simp only [choice_token_ids, List.filterMap_cons]
    cases hc : alookup q_choice_map (normalize_label l) with
    | some c =>
      have hcne : c ≠ "" := h _ (alookup_mem hc)
      simp [spec_choiceTokenMatch, hc, hcne, ih]
    | none =>
      cases hf : fuzzy_match q_choice_map (normalize_label l) with
      | some k => simp [spec_choiceTokenMatch, hc, hf, ih]
      | none => simp [spec_choiceTokenMatch, hc, hf, ih]

/-- C6: on a single-choice or multi-choice question type, the builder's
answer for a value is exactly the spec's token pipeline: the value's tokens
(split on commas, or the truthy elements of a native list), each normalized
and matched by exact normalized lookup first with the first substring hit
in either direction as fallback, unmatched tokens silently dropped; the
question is omitted from the payload exactly when no token matched. -/
theorem answer_for_value_choice_spec :
    ∀ qtype q_choice_map value,
      (qtype = "cs" ∨ qtype = "cm") →
      (∀ p ∈ q_choice_map, p.2 ≠ "") →
      answer_for_value qtype q_choice_map value =
        (if (labels_of value).filterMap (spec_choiceTokenMatch q_choice_map) = [] then none
         else some (.choices
           ((labels_of value).filterMap (spec_choiceTokenMatch q_choice_map)))) := by
  intro qtype q_choice_map value hq h
  have hne1 : ¬ (qtype = "ts" ∨ qtype = "te" ∨ qtype = "pg" ∨ qtype = "text") := by
    rcases hq with rfl | rfl <;> decide
  have hne2 : ¬ qtype = "da" := by
    rcases hq with rfl | rfl <;> decide
  simp only [answer_for_value, hne1, hne2, hq, if_false, if_true]
  rw [choice_token_ids_eq q_choice_map h]
  by_cases hnil : (labels_of value).filterMap (spec_choiceTokenMatch q_choice_map) = []
  · simp [hnil]
  · simp [hnil]

/-- C6 witness: on a single-choice type, a comma-separated value with an
exact match, a substring-only match and an unmatched token yields exactly
the two matched ids. -/
theorem answer_for_value_choice_spec_witness :
    answer_for_value "cs" [("red", "1"), ("lightblue", "2")] (.vStr "Red, blue, zzz") =
      some (.choices ["1", "2"]) := by
  have h := answer_for_value_choice_spec "cs" [("red", "1"), ("lightblue", "2")]
    (.vStr "Red, blue, zzz") (Or.inl rfl) (by decide)
  rw [h]
  decide
